import Mathlib

/-!
Verification of the Alba payment-gateway client (`alba_client/service.py`)
against its natural-language specification.

The embedding models Python values that the client manipulates: `None`,
strings and integers (`PyVal`), and Python `dict`s as association lists with
insertion-order update semantics (`dinsert`, `dupdate`, `dget`).  The MD5
digest, the `sign` routine from the `.sign` module and the exception classes
of the `.exceptions` module are external to the single source file and are
modelled abstractly (as function parameters / an abstract error-kind type),
following the specification where it constrains them.
-/

/-- A Python value as used by the client: `None`, a string, or an integer. -/
inductive PyVal where
  | vnone
  | vstr (s : String)
  | vint (n : Int)
deriving DecidableEq, Repr

/-- Python truthiness: `None` is falsy, a string is truthy iff non-empty,
an integer is truthy iff non-zero. -/
def PyVal.truthy : PyVal → Bool
  | .vnone => false
  | .vstr s => !(s == "")
  | .vint n => !(n == 0)

/-- A Python dict of string keys, as an association list (insertion order). -/
abbrev PyDict := List (String × PyVal)

/-- `d[k] = v` on a Python dict with unique keys: replace the value in place
if the key is present, append the pair otherwise. -/
def dinsert : PyDict → String → PyVal → PyDict
  | [], k, v => [(k, v)]
  | p :: rest, k, v =>
    if p.1 = k then (k, v) :: rest else p :: dinsert rest k v

/-- `d.update(kvs)`: insert every pair in order. -/
def dupdate (d : PyDict) (kvs : PyDict) : PyDict :=
  kvs.foldl (fun acc p => dinsert acc p.1 p.2) d

/-- `d.get(k)`: the value at key `k`, if present. -/
def dget (d : PyDict) (k : String) : Option PyVal :=
  (d.find? (fun p => p.1 = k)).map Prod.snd

/-- The dict without key `k` (used to model signing over the parameters
excluding any pre-existing `check`). -/
def derase (d : PyDict) (k : String) : PyDict :=
  d.filter (fun p => p.1 ≠ k)

theorem dget_dinsert_self (d : PyDict) (k : String) (v : PyVal) :
    dget (dinsert d k v) k = some v := by
  induction d with
  | nil => simp [dinsert, dget, List.find?]
  | cons p rest ih =>
    by_cases h : p.1 = k
    · simp [dinsert, h, dget, List.find?]
    · simpa [dinsert, h, dget, List.find?] using ih

theorem dget_dinsert_ne (d : PyDict) (k0 k : String) (v : PyVal)
    (h : k ≠ k0) : dget (dinsert d k0 v) k = dget d k := by
  induction d with
  | nil => simp [dinsert, dget, List.find?, Ne.symm h]
  | cons p rest ih =>
    by_cases h0 : p.1 = k0
    · simp [dinsert, h0, dget, List.find?, Ne.symm h, h0 ▸ Ne.symm h]
    · by_cases h1 : p.1 = k
      · simp [dinsert, h0, dget, List.find?, h1, h]
      · simpa [dinsert, h0, dget, List.find?, h1] using ih

theorem derase_dinsert_self (d : PyDict) (k : String) (v : PyVal) :
    derase (dinsert d k v) k = derase d k := by
  induction d with
  | nil => simp [dinsert, derase]
  | cons p rest ih =>
    by_cases h : p.1 = k
    · simp [dinsert, h, derase]
    · simpa [dinsert, h, derase] using ih

theorem dget_dupdate_not_mem (d : PyDict) (kvs : PyDict) (k : String)
    (h : ∀ p ∈ kvs, p.1 ≠ k) : dget (dupdate d kvs) k = dget d k := by
  induction kvs generalizing d with
  | nil => rfl
  | cons p rest ih =>
    have hp : p.1 ≠ k := h p (List.mem_cons_self p rest)
    have hrest : ∀ q ∈ rest, q.1 ≠ k := fun q hq => h q (List.mem_cons_of_mem p hq)
    calc dget (dupdate d (p :: rest)) k
        = dget (dupdate (dinsert d p.1 p.2) rest) k := rfl
      _ = dget (dinsert d p.1 p.2) k := ih (dinsert d p.1 p.2) hrest
      _ = dget d k := dget_dinsert_ne d p.1 k p.2 (Ne.symm hp)

theorem dget_dupdate_mem (d : PyDict) (kvs : PyDict) (k : String) (v : PyVal)
    (hnd : (kvs.map Prod.fst).Nodup) (hm : (k, v) ∈ kvs) :
    dget (dupdate d kvs) k = some v := by
  induction kvs generalizing d with
  | nil => cases hm
  | cons p rest ih =>
    rcases List.mem_cons.mp hm with heq | hmem
    · subst heq
      have hk : ∀ q ∈ rest, q.1 ≠ k := by
        intro q hq
        have : k ∉ rest.map Prod.fst := by
          simpa using (List.nodup_cons.mp hnd).1
        intro hqk
        exact this (hqk ▸ List.mem_map_of_mem Prod.fst hq)
      calc dget (dupdate d ((k, v) :: rest)) k
          = dget (dupdate (dinsert d k v) rest) k := rfl
        _ = dget (dinsert d k v) k := dget_dupdate_not_mem _ rest k hk
        _ = some v := dget_dinsert_self d k v
    · exact ih (dinsert d p.1 p.2) (List.nodup_cons.mp hnd).2 hmem

/-- The signature of an abstract signing core: HTTP method, URL, parameter
dict, secret, yielding the signature string. -/
abbrev SignCore := String → String → PyDict → String → String

/-- Modelled from the spec: the `sign` routine of the `.sign` module (absent
from the source tree).  Per the signing contract, it is a deterministic
function of the HTTP method, the target URL, the full parameter mapping
*excluding any pre-existing `check`*, and the secret; the digest itself is
kept abstract as `core`. -/
def sign (core : SignCore) (method url : String) (params : PyDict)
    (secret : String) : String :=
  core method url (derase params "check") secret

def BASE_URL : String := "https://partner.rficb.ru/"

def input_url : String := BASE_URL ++ "alba/input/"

def details_url : String := BASE_URL ++ "alba/details/"

/-- `AlbaService.init_payment`: builds the parameter dict that is transmitted
by the final POST (the `fields` dict after `fields['check']` is assigned).
Scalar arguments are `PyVal`s (`vnone` models an omitted optional argument);
`bank_params` is the dict argument, with `[]` standing for both `None` and an
empty dict (both are falsy); `kwargs` are the extra keyword arguments in
order. -/
def init_payment_fields (core : SignCore) (service_id : PyVal) (secret : String)
    (pay_type cost name email phone : PyVal) (order_id comment : PyVal)
    (bank_params : PyDict) (commission card_token recurrent_params : PyVal)
    (kwargs : PyDict) : PyDict :=
  let fields : PyDict :=
    [("cost", cost), ("name", name), ("email", email), ("phone_number", phone),
     ("background", .vstr "1"), ("type", pay_type), ("service_id", service_id),
     ("version", .vstr "2.0")]
  let fields := if order_id.truthy then dinsert fields "order_id" order_id else fields
  let fields := if comment.truthy then dinsert fields "comment" comment else fields
  let fields := if bank_params ≠ [] then dupdate fields bank_params else fields
  let fields := if commission.truthy then dinsert fields "commission" commission else fields
  let fields := if card_token.truthy then dinsert fields "card_token" card_token else fields
  let fields := if recurrent_params.truthy then dinsert fields "recurrent_params" recurrent_params else fields
  let fields := dupdate fields kwargs
  dinsert fields "check" (.vstr (sign core "POST" input_url fields secret))

/-- The error raised locally by `transaction_details` before any request. -/
inductive TxnError where
  | missArgument (msg : String)
deriving DecidableEq, Repr

/-- `AlbaService.transaction_details`: either the signed parameter dict that
is POSTed (`Except.ok`), or the `MissArgumentError` raised before any network
call is made (`Except.error`). -/
def transaction_details (core : SignCore) (service_id : PyVal) (secret : String)
    (tid order_id : PyVal) : Except TxnError PyDict :=
  if tid.truthy then
    let params : PyDict := [("tid", tid)]
    let params := dinsert params "version" (.vstr "2.0")
    Except.ok (dinsert params "check" (.vstr (sign core "POST" details_url params secret)))
  else if order_id.truthy then
    let params : PyDict := [("order_id", order_id), ("service_id", service_id)]
    let params := dinsert params "version" (.vstr "2.0")
    Except.ok (dinsert params "check" (.vstr (sign core "POST" details_url params secret)))
  else
    Except.error (.missArgument "Ожидается аргумент tid или order_id")

/-- The argument object of `AlbaService.create_card_token` (`request`);
`exp_month` is a string (the code takes its `len`). -/
structure CardTokenRequest where
  service_id : PyVal
  card : PyVal
  exp_month : String
  exp_year : PyVal
  cvc : PyVal
  card_holder : PyVal

/-- `AlbaService.create_card_token`: the parameter dict POSTed to the
card-token endpoint. -/
def create_card_token_params (req : CardTokenRequest) : PyDict :=
  let month := if req.exp_month.length = 1 then "0" ++ req.exp_month else req.exp_month
  let params : PyDict :=
    [("service_id", req.service_id), ("card", req.card),
     ("exp_month", .vstr month), ("exp_year", req.exp_year), ("cvc", req.cvc)]
  if req.card_holder.truthy then dupdate params [("card_holder", req.card_holder)] else params

/-- A decoded JSON response object with string fields (key lookup). -/
abbrev JsonObj := String → Option String

/-- `json_response.get('msg', json_response.get('message'))`: the message of
a gateway-reported error is the `msg` field, or the `message` field when
`msg` is absent. -/
def msg_field (resp : JsonObj) : Option String :=
  match resp "msg" with
  | some m => some m
  | none => resp "message"

/-- The outcome of one call to `requests.get`/`requests.post`: either a
connection-level failure (`requests.ConnectionError`) or an HTTP response
with a status code and a body. -/
inductive TransportResult where
  | connError (e : String)
  | httpResp (status : Nat) (body : String)

/-- An exception escaping `AlbaService._request`.  Exception classes of the
`.exceptions` module (absent from the source tree) are abstract error kinds
`α`; a raised instance carries its kind and its message.  `keyError` models
the `KeyError` from `json_response['status']` and `jsonDecodeError` a
`json.loads` failure. -/
inductive RequestError (α : Type) where
  | albaExn (kind : α) (msg : Option String)
  | keyError (key : String)
  | jsonDecodeError

/-- `AlbaService._request` after the URL/method/data were fixed: consumes the
single transport result `tr` (the function performs exactly one HTTP call and
never retries), checks the status code, decodes the body via the abstract
JSON parser `parse`, and classifies the response.  `table` is the
`CODE2EXCEPTION` dict of the `.exceptions` module (abstract: its contents are
not in the source tree) and `albaException` the generic `AlbaException`
kind. -/
def request_core {α : Type} (parse : String → Option JsonObj)
    (table : String → Option α) (albaException : α) (tr : TransportResult) :
    Except (RequestError α) JsonObj :=
  match tr with
  | .connError e => .error (.albaExn albaException (some e))
  | .httpResp status body =>
    if status ≠ 200 then
      .error (.albaExn albaException (some ("Сервер не доступен: " ++ toString status)))
    else
      match parse body with
      | none => .error .jsonDecodeError
      | some resp =>
        match resp "status" with
        | none => .error (.keyError "status")
        | some s =>
          if s = "error" then
            .error (.albaExn ((table ((resp "code").getD "unknown")).getD albaException)
                             (msg_field resp))
          else .ok resp

/-- The fixed callback-verification field order of `check_callback_sign`. -/
def callback_order : List String :=
  ["tid", "name", "comment", "partner_id", "service_id", "order_id", "type",
   "cost", "income_total", "income", "partner_income", "system_income",
   "command", "phone_number", "email", "resultStr", "date_created", "version"]

/-- `AlbaService.check_callback_sign`: the inbound POST mapping is a partial
map from field name to string.  `md5` is the abstract hex digest.  The result
is `none` when `post['check']` raises `KeyError` (no `check` field), and
`some b` when the function returns the boolean `b`. -/
def check_callback_sign (md5 : String → String) (secret : String)
    (post : String → Option String) : Option Bool :=
  let params := callback_order.map (fun f => (post f).getD "")
  let params := params ++ [secret]
  match post "check" with
  | some c => some (md5 (String.join params) == c)
  | none => none

/-- The digest of the specification sentence, written out field by field: the
18 named fields concatenated in the stated order (absent fields as `""`),
the secret appended, then hashed. -/
def spec_callback_digest (md5 : String → String) (secret : String)
    (post : String → Option String) : String :=
  md5 ((post "tid").getD "" ++ (post "name").getD "" ++ (post "comment").getD "" ++
    (post "partner_id").getD "" ++ (post "service_id").getD "" ++
    (post "order_id").getD "" ++ (post "type").getD "" ++ (post "cost").getD "" ++
    (post "income_total").getD "" ++ (post "income").getD "" ++
    (post "partner_income").getD "" ++ (post "system_income").getD "" ++
    (post "command").getD "" ++ (post "phone_number").getD "" ++
    (post "email").getD "" ++ (post "resultStr").getD "" ++
    (post "date_created").getD "" ++ (post "version").getD "" ++ secret)

/-- The outcome of one `check_callback_sign` call at Python-value fidelity:
a returned boolean, the `TypeError` that `''.join(params)` raises when some
joined element is not a string, or the `KeyError` that `post['check']`
raises when the `check` field is absent. -/
inductive CallbackResult where
  | ok (b : Bool)
  | typeError
  | keyError (key : String)
deriving DecidableEq, Repr

/-- `''.join(l)`: the concatenation of the elements when all of them are
strings, `none` (a `TypeError`) otherwise. -/
def pyjoin : List PyVal → Option String
  | [] => some ""
  | .vstr s :: rest => (pyjoin rest).map (fun t => s ++ t)
  | _ :: _ => none

/-- `AlbaService.check_callback_sign` at Python-value fidelity: the inbound
POST mapping carries arbitrary Python values.  `''.join(params)` is
evaluated first (so a non-string value among the 18 ordered fields raises
`TypeError` before `post['check']` is reached), then `post['check']` is
looked up (`KeyError` when absent); the final `==` between the hex digest
string and the `check` value is Python equality, which is `False` — not an
error — when the `check` value is not a string. -/
def check_callback_sign_py (md5 : String → String) (secret : String)
    (post : String → Option PyVal) : CallbackResult :=
  let params := callback_order.map (fun f => (post f).getD (.vstr ""))
  let params := params ++ [PyVal.vstr secret]
  match pyjoin params with
  | none => .typeError
  | some joined =>
    match post "check" with
    | some c => .ok (PyVal.vstr (md5 joined) == c)
    | none => .keyError "check"

/-- C1: for every inbound parameter mapping carrying a `check` field,
`check_callback_sign` returns the comparison of that field against the digest
of the 18 fields tid, name, comment, partner_id, service_id, order_id, type,
cost, income_total, income, partner_income, system_income, command,
phone_number, email, resultStr, date_created, version concatenated in that
fixed order (absent fields as the empty string) with the shared secret
appended. -/
theorem c1_check_callback_sign_digest (md5 : String → String) (secret : String)
    (post : String → Option String) (c : String) (h : post "check" = some c) :
    check_callback_sign md5 secret post =
      some (spec_callback_digest md5 secret post == c) := by
  unfold check_callback_sign spec_callback_digest callback_order
  rw [h]
  simp only [List.map, String.join, List.foldl, Option.getD]
  rw [String.empty_append]

/-- C1 witness: with the identity digest, an inbound mapping holding only
`check = "secret"` verifies (all 18 fields default to `""`, so the digest is
the bare secret). -/
theorem c1_witness :
    check_callback_sign (fun s => s) "secret"
      (fun k => if k = "check" then some "secret" else none) = some true := by
  have h := c1_check_callback_sign_digest (fun s => s) "secret"
    (fun k => if k = "check" then some "secret" else none) "secret" rfl
  simpa [spec_callback_digest] using h

/-- C4 counterexample: `check_callback_sign` does not return a boolean for
every inbound mapping — on `{'check': 'abc', 'cost': 100}` the non-string
`cost` value makes `''.join(params)` raise `TypeError` even though `check`
is present, and on an empty mapping `post['check']` raises `KeyError`. -/
theorem c4_counterexample :
    check_callback_sign_py (fun s => s) "secret"
        (fun k => if k = "check" then some (.vstr "abc")
          else if k = "cost" then some (.vint 100) else none) =
      CallbackResult.typeError ∧
      check_callback_sign_py (fun s => s) "secret" (fun _ => none) =
        CallbackResult.keyError "check" := by
  decide

theorem pyjoin_of_all_strings (l : List PyVal)
    (h : ∀ p ∈ l, ∃ s, p = PyVal.vstr s) : ∃ j, pyjoin l = some j := by
  induction l with
  | nil => exact ⟨"", rfl⟩
  | cons p rest ih =>
    obtain ⟨s, hs⟩ := h p (List.mem_cons_self p rest)
    obtain ⟨j, hj⟩ := ih (fun q hq => h q (List.mem_cons_of_mem p hq))
    subst hs
    exact ⟨s ++ j, by simp [pyjoin, hj]⟩

/-- C4 amended: `check_callback_sign` returns a boolean and raises no error
for every inbound mapping that contains the `check` field and whose values
at the 18 ordered notification fields are all strings; with a non-string
value among those fields it raises `TypeError`, and with `check` absent it
raises `KeyError`.  The `check` value itself may be any Python value: the
digest comparison is then simply `False`. -/
theorem c4_returns_bool_for_string_payloads (md5 : String → String)
    (secret : String) (post : String → Option PyVal) (c : PyVal)
    (hcheck : post "check" = some c)
    (hstr : ∀ f ∈ callback_order, ∀ v, post f = some v →
      ∃ s, v = PyVal.vstr s) :
    ∃ b, check_callback_sign_py md5 secret post = CallbackResult.ok b := by
  have hall : ∀ p ∈ (callback_order.map (fun f => (post f).getD (.vstr ""))) ++
      [PyVal.vstr secret], ∃ s, p = PyVal.vstr s := by
    intro p hp
    rcases List.mem_append.mp hp with hp | hp
    · obtain ⟨f, hf, rfl⟩ := List.mem_map.mp hp
      cases hv : post f with
      | none => exact ⟨"", by simp [hv]⟩
      | some v =>
        obtain ⟨s, rfl⟩ := hstr f hf v hv
        exact ⟨s, by simp [hv]⟩
    · simp only [List.mem_singleton] at hp
      exact ⟨secret, hp⟩
  obtain ⟨j, hj⟩ := pyjoin_of_all_strings _ hall
  refine ⟨PyVal.vstr (md5 j) == c, ?_⟩
  simp only [check_callback_sign_py]
  rw [hj, hcheck]

/-- C4 witness: a mapping whose fields are all strings and which carries a
`check` field yields a boolean. -/
theorem c4_witness :
    ∃ b, check_callback_sign_py (fun s => s) "secret"
      (fun _ => some (.vstr "x")) = CallbackResult.ok b :=
  c4_returns_bool_for_string_payloads (fun s => s) "secret"
    (fun _ => some (.vstr "x")) (.vstr "x") rfl
    (fun _ _ _ hv => ⟨"x", (Option.some.inj hv).symm⟩)

/-- C7: `transaction_details` with neither `tid` nor `order_id` supplied
(both default to `None`) raises `MissArgumentError` and builds no request, so
no network call is made. -/
theorem c7_transaction_details_missing_args (core : SignCore)
    (service_id : PyVal) (secret : String) :
    transaction_details core service_id secret .vnone .vnone =
      Except.error (.missArgument "Ожидается аргумент tid или order_id") := rfl

/-- C10: `transaction_details` treats falsy arguments as absent: with a falsy
`tid` the call behaves exactly as if `tid` were `None` (the `tid` branch is
not taken), and if `order_id` is falsy as well it raises `MissArgumentError`
without issuing any request, even though arguments were supplied. -/
theorem c10_transaction_details_falsy (core : SignCore) (service_id : PyVal)
    (secret : String) (tid order_id : PyVal) (ht : tid.truthy = false) :
    transaction_details core service_id secret tid order_id =
        transaction_details core service_id secret .vnone order_id ∧
      (order_id.truthy = false →
        transaction_details core service_id secret tid order_id =
          Except.error (.missArgument "Ожидается аргумент tid или order_id")) := by
  have hvn : PyVal.vnone.truthy = false := rfl
  constructor
  · simp [transaction_details, ht, hvn]
  · intro ho
    simp [transaction_details, ht, ho]

/-- C10 witness: `tid = 0` and `order_id = ""` are both falsy, so the call
fails with the missing-argument error despite both arguments being
supplied. -/
theorem c10_witness :
    transaction_details (fun _ _ _ _ => "") (.vstr "sid") "secret"
        (.vint 0) (.vstr "") =
      Except.error (.missArgument "Ожидается аргумент tid или order_id") :=
  (c10_transaction_details_falsy (fun _ _ _ _ => "") (.vstr "sid") "secret"
    (.vint 0) (.vstr "") rfl).2 rfl

/-- C8: `create_card_token` zero-pads a one-character `exp_month` to two
digits and sends a two-character `exp_month` unchanged. -/
theorem c8_create_card_token_month_pad (req : CardTokenRequest) :
    (req.exp_month.length = 1 →
      dget (create_card_token_params req) "exp_month" =
        some (.vstr ("0" ++ req.exp_month))) ∧
    (req.exp_month.length = 2 →
      dget (create_card_token_params req) "exp_month" =
        some (.vstr req.exp_month)) := by
  have hbase : dget (create_card_token_params req) "exp_month" =
      some (.vstr (if req.exp_month.length = 1 then "0" ++ req.exp_month
                   else req.exp_month)) := by
    simp only [create_card_token_params]
    split
    · rw [dget_dupdate_not_mem]
      · simp [dget, List.find?]
      · simp
    · simp [dget, List.find?]
  refine ⟨fun h1 => ?_, fun h2 => ?_⟩
  · rw [hbase, if_pos h1]
  · rw [hbase, if_neg (by simp [h2])]

/-- C8 witness: month `"3"` is sent as `"03"`, month `"11"` unchanged. -/
theorem c8_witness :
    dget (create_card_token_params
        ⟨.vstr "sid", .vstr "4111111111111111", "3", .vstr "2030",
         .vstr "123", .vnone⟩) "exp_month" = some (.vstr "03") ∧
    dget (create_card_token_params
        ⟨.vstr "sid", .vstr "4111111111111111", "11", .vstr "2030",
         .vstr "123", .vnone⟩) "exp_month" = some (.vstr "11") := by
  constructor
  · have h := (c8_create_card_token_month_pad
      ⟨.vstr "sid", .vstr "4111111111111111", "3", .vstr "2030",
       .vstr "123", .vnone⟩).1 rfl
    simpa using h
  · exact (c8_create_card_token_month_pad
      ⟨.vstr "sid", .vstr "4111111111111111", "11", .vstr "2030",
       .vstr "123", .vnone⟩).2 rfl

theorem dget_dinsert_ite (c : Prop) [Decidable c] (d : PyDict) (k0 k : String)
    (v : PyVal) (h : k ≠ k0) :
    dget (if c then dinsert d k0 v else d) k = dget d k := by
  split
  · exact dget_dinsert_ne d k0 k v h
  · rfl

theorem dget_ite_dupdate_not_mem (c : Prop) [Decidable c] (d : PyDict)
    (kvs : PyDict) (k : String) (h : ∀ p ∈ kvs, p.1 ≠ k) :
    dget (if c then dupdate d kvs else d) k = dget d k := by
  split
  · exact dget_dupdate_not_mem d kvs k h
  · rfl

theorem dget_dinsert_check_sign (core : SignCore) (m u : String) (F : PyDict)
    (s : String) :
    dget (dinsert F "check" (.vstr (sign core m u F s))) "check" =
      some (.vstr (core m u
        (derase (dinsert F "check" (.vstr (sign core m u F s))) "check") s)) := by
  rw [dget_dinsert_self, sign, derase_dinsert_self]

/-- C3: the `check` field of the parameter dict transmitted by
`init_payment` always equals the signature computed by the signing routine
over the other transmitted parameters — whatever extra keyword arguments the
caller passes, a caller-supplied `check` entry included, the final
`fields['check'] = sign(...)` assignment overwrites it, so `check` is never
independently settable. -/
theorem c3_init_payment_check_derived (core : SignCore) (service_id : PyVal)
    (secret : String) (pay_type cost name email phone order_id comment : PyVal)
    (bank_params : PyDict) (commission card_token recurrent_params : PyVal)
    (kwargs : PyDict) :
    dget (init_payment_fields core service_id secret pay_type cost name email
        phone order_id comment bank_params commission card_token
        recurrent_params kwargs) "check" =
      some (.vstr (core "POST" input_url
        (derase (init_payment_fields core service_id secret pay_type cost name
          email phone order_id comment bank_params commission card_token
          recurrent_params kwargs) "check") secret)) := by
  simp only [init_payment_fields]
  exact dget_dinsert_check_sign core "POST" input_url _ secret

/-- C5 counterexample: an extra keyword argument `version="3.0"` is merged by
`fields.update(kwargs)` after the fixed fields, so the transmitted `version`
is `"3.0"`, not the claimed fixed `"2.0"`. -/
theorem c5_counterexample :
    dget (init_payment_fields (fun _ _ _ _ => "") (.vstr "sid") "secret"
        (.vstr "pt") (.vstr "10") (.vstr "n") (.vstr "e@example.com")
        (.vstr "79000000000") .vnone .vnone [] .vnone .vnone .vnone
        [("version", .vstr "3.0")]) "version" = some (.vstr "3.0") ∧
      dget (init_payment_fields (fun _ _ _ _ => "") (.vstr "sid") "secret"
        (.vstr "pt") (.vstr "10") (.vstr "n") (.vstr "e@example.com")
        (.vstr "79000000000") .vnone .vnone [] .vnone .vnone .vnone
        [("version", .vstr "3.0")]) "version" ≠ some (.vstr "2.0") := by
  decide

/-- C5 amended: the dict transmitted by `init_payment` contains
`version = "2.0"` and `background = "1"` regardless of the caller-supplied
required and optional arguments, provided neither `bank_params` nor the extra
keyword arguments carry the keys `version` or `background` (entries merged
after the fixed fields overwrite them otherwise). -/
theorem c5_init_payment_version_background (core : SignCore)
    (service_id : PyVal) (secret : String)
    (pay_type cost name email phone order_id comment : PyVal)
    (bank_params : PyDict) (commission card_token recurrent_params : PyVal)
    (kwargs : PyDict)
    (hbk : ∀ p ∈ bank_params, p.1 ≠ "version" ∧ p.1 ≠ "background")
    (hkw : ∀ p ∈ kwargs, p.1 ≠ "version" ∧ p.1 ≠ "background") :
    dget (init_payment_fields core service_id secret pay_type cost name email
        phone order_id comment bank_params commission card_token
        recurrent_params kwargs) "version" = some (.vstr "2.0") ∧
      dget (init_payment_fields core service_id secret pay_type cost name email
        phone order_id comment bank_params commission card_token
        recurrent_params kwargs) "background" = some (.vstr "1") := by
  simp only [init_payment_fields]
  constructor
  · rw [dget_dinsert_ne _ "check" "version" _ (by decide),
      dget_dupdate_not_mem _ kwargs "version" (fun p hp => (hkw p hp).1),
      dget_dinsert_ite _ _ "recurrent_params" "version" _ (by decide),
      dget_dinsert_ite _ _ "card_token" "version" _ (by decide),
      dget_dinsert_ite _ _ "commission" "version" _ (by decide),
      dget_ite_dupdate_not_mem _ _ bank_params "version"
        (fun p hp => (hbk p hp).1),
      dget_dinsert_ite _ _ "comment" "version" _ (by decide),
      dget_dinsert_ite _ _ "order_id" "version" _ (by decide)]
    rfl
  · rw [dget_dinsert_ne _ "check" "background" _ (by decide),
      dget_dupdate_not_mem _ kwargs "background" (fun p hp => (hkw p hp).2),
      dget_dinsert_ite _ _ "recurrent_params" "background" _ (by decide),
      dget_dinsert_ite _ _ "card_token" "background" _ (by decide),
      dget_dinsert_ite _ _ "commission" "background" _ (by decide),
      dget_ite_dupdate_not_mem _ _ bank_params "background"
        (fun p hp => (hbk p hp).2),
      dget_dinsert_ite _ _ "comment" "background" _ (by decide),
      dget_dinsert_ite _ _ "order_id" "background" _ (by decide)]
    rfl

/-- C5 witness: a plain call without colliding keys transmits
`version = "2.0"` and `background = "1"`. -/
theorem c5_witness :
    dget (init_payment_fields (fun _ _ _ _ => "") (.vstr "sid") "secret"
        (.vstr "pt") (.vstr "10") (.vstr "n") (.vstr "e@example.com")
        (.vstr "79000000000") .vnone .vnone [] .vnone .vnone .vnone [])
        "version" = some (.vstr "2.0") ∧
      dget (init_payment_fields (fun _ _ _ _ => "") (.vstr "sid") "secret"
        (.vstr "pt") (.vstr "10") (.vstr "n") (.vstr "e@example.com")
        (.vstr "79000000000") .vnone .vnone [] .vnone .vnone .vnone [])
        "background" = some (.vstr "1") :=
  c5_init_payment_version_background (fun _ _ _ _ => "") (.vstr "sid")
    "secret" (.vstr "pt") (.vstr "10") (.vstr "n") (.vstr "e@example.com")
    (.vstr "79000000000") .vnone .vnone [] .vnone .vnone .vnone []
    (by decide) (by decide)

/-- C9 counterexample: a `bank_params` entry is overwritten when an extra
keyword argument uses the same key — `fields.update(kwargs)` runs after the
`bank_params` merge — so not every `bank_params` pair survives to the
transmitted dict. -/
theorem c9_counterexample :
    dget (init_payment_fields (fun _ _ _ _ => "") (.vstr "sid") "secret"
        (.vstr "pt") (.vstr "10") (.vstr "n") (.vstr "e@example.com")
        (.vstr "79000000000") .vnone .vnone [("account", .vstr "123")]
        .vnone .vnone .vnone [("account", .vstr "456")]) "account" =
      some (.vstr "456") ∧
      dget (init_payment_fields (fun _ _ _ _ => "") (.vstr "sid") "secret"
        (.vstr "pt") (.vstr "10") (.vstr "n") (.vstr "e@example.com")
        (.vstr "79000000000") .vnone .vnone [("account", .vstr "123")]
        .vnone .vnone .vnone [("account", .vstr "456")]) "account" ≠
      some (.vstr "123") := by
  decide

/-- C9 amended: every key-value pair of `bank_params` appears as a top-level
field of the signed request dict (not nested), provided its key is not among
the keys written after the merge — `commission`, `card_token`,
`recurrent_params`, `check` — and does not occur in the extra keyword
arguments. -/
theorem c9_init_payment_bank_params_flat (core : SignCore) (service_id : PyVal)
    (secret : String) (pay_type cost name email phone order_id comment : PyVal)
    (bank_params : PyDict) (commission card_token recurrent_params : PyVal)
    (kwargs : PyDict) (k : String) (v : PyVal)
    (hnd : (bank_params.map Prod.fst).Nodup) (hm : (k, v) ∈ bank_params)
    (hk1 : k ≠ "commission") (hk2 : k ≠ "card_token")
    (hk3 : k ≠ "recurrent_params") (hk4 : k ≠ "check")
    (hkw : ∀ p ∈ kwargs, p.1 ≠ k) :
    dget (init_payment_fields core service_id secret pay_type cost name email
        phone order_id comment bank_params commission card_token
        recurrent_params kwargs) k = some v := by
  have hne : bank_params ≠ [] := by
    rintro rfl
    cases hm
  simp only [init_payment_fields]
  rw [dget_dinsert_ne _ "check" k _ hk4,
    dget_dupdate_not_mem _ kwargs k hkw,
    dget_dinsert_ite _ _ "recurrent_params" k _ hk3,
    dget_dinsert_ite _ _ "card_token" k _ hk2,
    dget_dinsert_ite _ _ "commission" k _ hk1,
    if_pos hne]
  exact dget_dupdate_mem _ bank_params k v hnd hm

/-- C9 witness: `bank_params = {"account": "123"}` yields a top-level
`account = "123"` in the signed request dict. -/
theorem c9_witness :
    dget (init_payment_fields (fun _ _ _ _ => "") (.vstr "sid") "secret"
        (.vstr "pt") (.vstr "10") (.vstr "n") (.vstr "e@example.com")
        (.vstr "79000000000") .vnone .vnone [("account", .vstr "123")]
        .vnone .vnone .vnone []) "account" = some (.vstr "123") :=
  c9_init_payment_bank_params_flat (fun _ _ _ _ => "") (.vstr "sid") "secret"
    (.vstr "pt") (.vstr "10") (.vstr "n") (.vstr "e@example.com")
    (.vstr "79000000000") .vnone .vnone [("account", .vstr "123")]
    .vnone .vnone .vnone [] "account" (.vstr "123")
    (by decide) (by decide) (by decide) (by decide) (by decide) (by decide)
    (by decide)

/-- C2: for every decoded gateway response whose `status` is `"error"`,
`_request` raises the exception class that the `CODE2EXCEPTION` table assigns
to the response's `code`, with the message taken from `msg` or — when `msg`
is absent — from `message`; a code absent from the table yields the generic
`AlbaException` with that same message (`Option.getD` covers both the mapped
and the fallback case). -/
theorem c2_request_error_dispatch {α : Type} (parse : String → Option JsonObj)
    (table : String → Option α) (albaException : α) (body : String)
    (resp : JsonObj) (c : String) (hp : parse body = some resp)
    (hs : resp "status" = some "error") (hc : resp "code" = some c) :
    request_core parse table albaException (.httpResp 200 body) =
      .error (.albaExn ((table c).getD albaException) (msg_field resp)) := by
  simp [request_core, hp, hs, hc]

/-- C2 witness: the unmapped code `"unknown_code_xyz"` falls back to the
generic `AlbaException` kind, preserving the message `"boom"`. -/
theorem c2_witness :
    request_core
        (fun _ => some (fun k => if k = "status" then some "error"
          else if k = "code" then some "unknown_code_xyz"
          else if k = "msg" then some "boom" else none))
        (fun c => if c = "known_code" then some "KnownError" else none)
        "AlbaException" (.httpResp 200 "body") =
      .error (.albaExn "AlbaException" (some "boom")) := by
  have h := c2_request_error_dispatch
    (fun _ => some (fun k => if k = "status" then some "error"
      else if k = "code" then some "unknown_code_xyz"
      else if k = "msg" then some "boom" else none))
    (fun c => if c = "known_code" then some "KnownError" else none)
    "AlbaException" "body"
    (fun k => if k = "status" then some "error"
      else if k = "code" then some "unknown_code_xyz"
      else if k = "msg" then some "boom" else none)
    "unknown_code_xyz" rfl rfl rfl
  simpa [msg_field] using h

/-- C6: a connection-level transport failure makes `_request` raise the
gateway-unavailable `AlbaException` wrapping the underlying transport error,
and a non-200 HTTP status makes it raise the gateway-unavailable
`AlbaException` carrying that status code; the single transport result is
consumed exactly once (the routine performs one HTTP call and never
retries). -/
theorem c6_transport_failures {α : Type} (parse : String → Option JsonObj)
    (table : String → Option α) (albaException : α) (e : String)
    (status : Nat) (body : String) (h : status ≠ 200) :
    request_core parse table albaException (.connError e) =
        .error (.albaExn albaException (some e)) ∧
      request_core parse table albaException (.httpResp status body) =
        .error (.albaExn albaException
          (some ("Сервер не доступен: " ++ toString status))) := by
  constructor
  · rfl
  · simp [request_core, h]

/-- C6 witness: a connection error `"timeout"` and an HTTP 503 both surface
as the gateway-unavailable error. -/
theorem c6_witness :
    request_core (fun _ => none) (fun _ => (none : Option String))
        "AlbaException" (.connError "timeout") =
        .error (.albaExn "AlbaException" (some "timeout")) ∧
      request_core (fun _ => none) (fun _ => (none : Option String))
        "AlbaException" (.httpResp 503 "unavailable") =
        .error (.albaExn "AlbaException" (some "Сервер не доступен: 503")) := by
  have h := c6_transport_failures (fun _ => none)
    (fun _ => (none : Option String)) "AlbaException" "timeout" 503
    "unavailable" (by decide)
  simpa using h
